import Mathlib

set_option maxHeartbeats 1000000

/-!
Verification development for the sandbox-abstraction and tool-dispatch layer
of the repository (src/app/api/stt/route.ts, src/lib/sandbox-provider.ts,
src/lib/supabase-memory.ts).

The TypeScript sources are shallowly embedded: pure control flow becomes Lean
functions, remote calls become explicit event/call lists, thrown exceptions
become Except, and JavaScript truthiness on optional strings is modelled
explicitly.  Remote services (the managed execution RPC, the CDP endpoint,
the Supabase REST store, the inference endpoint) are modelled as function
parameters supplying their observable replies, since their internals are not
part of this repository.
-/

/-- JavaScript truthiness for an optional string: undefined and the empty
string are falsy, every other string is truthy. -/
def strTruthy : Option String → Bool
  | none => false
  | some s => s ≠ ""

/-- JavaScript `a || b` on optional strings: keeps `a` when it is truthy,
otherwise falls through to `b`. -/
def orElseStr (a b : Option String) : Option String :=
  if strTruthy a then a else b

/-- A single-quote character (used to rebuild the exact source error
messages, which quote parameter names). -/
def squote : String := (Char.ofNat 39).toString

/-- JavaScript String.prototype.trim, modelled on the character list. -/
def strTrim (s : String) : String :=
  String.mk (((s.data.dropWhile Char.isWhitespace).reverse.dropWhile
    Char.isWhitespace).reverse)

/-- JavaScript String.prototype.slice(0, n), modelled on the character
list. -/
def strTake (s : String) (n : Nat) : String :=
  String.mk (s.data.take n)

/-- url.replace of trailing slashes (the trailing-slash normalization used by
getSupabaseMemoryConfig). -/
def stripTrailingSlashes (s : String) : String :=
  String.mk ((s.data.reverse.dropWhile (fun c => c = Char.ofNat 47)).reverse)

/-- String.prototype.startsWith, modelled as a character-list check. -/
def strStartsWith (s pre : String) : Bool :=
  pre.data.isPrefixOf s.data

/-- String.prototype.toLowerCase, modelled on the character list. -/
def strToLower (s : String) : String :=
  String.mk (s.data.map Char.toLower)

/-! ## src/lib/sandbox-provider.ts -/

/-- The two sandbox backends (source type SandboxProvider). -/
inductive SandboxProvider
  | kernel
  | vps
deriving DecidableEq, Repr

/-- resolveSandboxProvider from src/lib/sandbox-provider.ts: lowercases
`input || env.SANDBOX_PROVIDER || "kernel"` and maps "vps" to the vps backend,
everything else to kernel. -/
def resolveSandboxProvider (input envSandboxProvider : Option String) :
    SandboxProvider :=
  let raw :=
    strToLower ((orElseStr (orElseStr input envSandboxProvider)
      (some "kernel")).getD "kernel")
  if raw = "vps" then SandboxProvider.vps else SandboxProvider.kernel

/-- Environment variables read by the embedded modules. -/
structure Env where
  SANDBOX_PROVIDER : Option String
  VPS_SANDBOX_LIVE_VIEW_URL : Option String
  VPS_SANDBOX_CDP_WS_URL : Option String
  VPS_SANDBOX_SESSION_ID : Option String
  KERNEL_API_KEY : Option String
  SUPABASE_URL : Option String
  SUPABASE_SERVICE_ROLE_KEY : Option String
  SUPABASE_ANON_KEY : Option String
  SUPABASE_MEMORY_TABLE : Option String
deriving DecidableEq, Repr

/-- VpsSandboxConfig from src/lib/sandbox-provider.ts. -/
structure VpsSandboxConfig where
  sessionId : String
  liveViewUrl : String
  cdpWsUrl : String
deriving DecidableEq, Repr

/-- getVpsSandboxConfig: requires both VPS_SANDBOX_LIVE_VIEW_URL and
VPS_SANDBOX_CDP_WS_URL (truthy); the session id defaults to
vps-sandbox-session. -/
def getVpsSandboxConfig (env : Env) : Option VpsSandboxConfig :=
  let liveViewUrl := env.VPS_SANDBOX_LIVE_VIEW_URL
  let cdpWsUrl := env.VPS_SANDBOX_CDP_WS_URL
  let sessionId :=
    (orElseStr env.VPS_SANDBOX_SESSION_ID (some "vps-sandbox-session")).getD
      "vps-sandbox-session"
  if strTruthy liveViewUrl && strTruthy cdpWsUrl then
    some { sessionId := sessionId, liveViewUrl := liveViewUrl.getD "",
           cdpWsUrl := cdpWsUrl.getD "" }
  else none

/-! ## Browser pages and session normalization (route.ts) -/

/-- One open page of the remote browser context.  `id` stands for JavaScript
object identity (enumerated pages are distinct objects); `closeFails` injects
a failure of page.close() so the swallow-and-continue behavior of the close
loop can be stated. -/
structure PageV where
  id : Nat
  url : String
  title : String
  closeFails : Bool
deriving DecidableEq, Repr

/-- The predicate used by the normalization snippet and selectPrimaryPage:
a page is skipped when its URL starts with a chrome-extension URL or is the
about:blank placeholder. -/
def isInternalOrBlank (url : String) : Bool :=
  strStartsWith url "chrome-extension://" || url = "about:blank"

/-- selectPrimaryPage from route.ts: the first page whose URL is neither an
internal extension URL nor about:blank, else the first page; none when there
are no pages (JavaScript undefined). -/
def selectPrimaryPage (pages : List PageV) : Option PageV :=
  match pages.find? (fun p => !isInternalOrBlank p.url) with
  | some p => some p
  | none => pages.head?

/-- State of the browser context behind the managed (kernel) execute RPC.
`enumFails` injects a failure of the enumeration/execute call itself. -/
structure BrowserCtx where
  pages : List PageV
  enumFails : Bool
deriving DecidableEq, Repr

/-- Report returned by the normalization snippet. -/
structure NormalizationReport where
  pageCountBefore : Nat
  pageCountAfter : Nat
  primaryUrl : Option String
deriving DecidableEq, Repr

/-- The close loop of the normalization snippet: every page other than the
primary is closed, each close failure is swallowed and the loop continues,
so a page survives exactly when it is the primary or its close failed. -/
def closeOtherPages (pages : List PageV) (primary : PageV) : List PageV :=
  pages.filter (fun p => p == primary || p.closeFails)

/-- The playwright snippet executed by normalizeToSinglePageKernel
(route.ts lines 254 to 284): zero pages is a no-op report; otherwise the
primary page is the first non-internal non-blank page, defaulting to the
first page; all other pages are closed with individual failures swallowed;
the bringToFront failure is also swallowed and has no modelled state
effect.  The whole call fails only when the enumeration itself fails. -/
def kernelNormalizeSnippet (ctx : BrowserCtx) :
    Except String (NormalizationReport × BrowserCtx) :=
  if ctx.enumFails then Except.error "page enumeration failed"
  else
    match ctx.pages with
    | [] =>
      Except.ok ({ pageCountBefore := 0, pageCountAfter := 0,
                   primaryUrl := none }, ctx)
    | p0 :: rest =>
      let pages := p0 :: rest
      let primary := (selectPrimaryPage pages).getD p0
      let remaining := closeOtherPages pages primary
      Except.ok ({ pageCountBefore := pages.length,
                   pageCountAfter := remaining.length,
                   primaryUrl := some primary.url },
                 { ctx with pages := remaining })

/-- normalizeToSinglePageKernel from route.ts: runs the snippet and catches
every failure (console.warn only), leaving the browser state as it was on
failure. -/
def normalizeToSinglePageKernel (ctx : BrowserCtx) : BrowserCtx :=
  match kernelNormalizeSnippet ctx with
  | Except.ok (_, ctx2) => ctx2
  | Except.error _ => ctx

/-- The outcome normalizeToSinglePageKernel presents to its caller: the
try/catch inside the function converts every failure into a normal return,
so the caller-visible outcome is always ok. -/
def normalizeToSinglePageKernelOutcome (ctx : BrowserCtx) :
    Except String BrowserCtx :=
  match kernelNormalizeSnippet ctx with
  | Except.ok (_, ctx2) => Except.ok ctx2
  | Except.error _ => Except.ok ctx

/-! ## Direct (VPS) backend connector: withVpsBrowser (route.ts lines 331-351) -/

/-- Observable transport events of one direct-backend operation: the CDP
WebSocket connection being opened and closed, a page being created during
primary-page resolution, and browser actions dispatched by the operation
body (named by the playwright call they perform). -/
inductive VpsEvent
  | connect
  | close
  | newPage
  | action (name : String)
deriving DecidableEq, Repr

/-- State of the remote browser behind the CDP endpoint: the contexts it
exposes (each a page list) and a flag injecting a failure of
chromium.connectOverCDP itself. -/
structure VpsBrowserState where
  connectFails : Bool
  contexts : List (List PageV)
deriving DecidableEq, Repr

/-- A fresh identity for a page created by context.newPage(). -/
def freshPageId (ps : List PageV) : Nat :=
  (ps.map (fun p => p.id)).foldr (fun a b => max a b) 0 + 1

/-- withVpsBrowser from route.ts: connects over CDP, takes the first browser
context (failing when there is none), resolves the primary page (creating a
blank page when none qualifies), runs the operation body, and always closes
the connection afterwards - the close sits in a finally block, so it happens
on the success path and on every failure path alike.  The operation body
reports its result and the browser actions it dispatched; a connect failure
happens before the try block, so no connection exists to close. -/
def withVpsBrowser {α : Type} (st : VpsBrowserState)
    (run : List PageV → PageV → Except String α × List String) :
    Except String α × List VpsEvent :=
  if st.connectFails then (Except.error "connect failed", [])
  else
    let inner : Except String α × List VpsEvent :=
      match st.contexts.head? with
      | none =>
        (Except.error "No browser context found on VPS CDP endpoint", [])
      | some ctxPages =>
        match selectPrimaryPage ctxPages with
        | some page =>
          let r := run ctxPages page
          (r.1, r.2.map VpsEvent.action)
        | none =>
          let page : PageV :=
            { id := freshPageId ctxPages, url := "about:blank", title := "",
              closeFails := false }
          let r := run (ctxPages ++ [page]) page
          (r.1, VpsEvent.newPage :: r.2.map VpsEvent.action)
    (inner.1, VpsEvent.connect :: inner.2 ++ [VpsEvent.close])

/-- The operation body of normalizeToSinglePageVps: closes every page other
than the resolved primary (individual close failures swallowed), brings the
primary to the front (failure swallowed), and reports the remaining pages. -/
def vpsNormalizeRun (ctxPages : List PageV) (page : PageV) :
    Except String (List PageV) × List String :=
  (Except.ok (ctxPages.filter (fun p => p == page || p.closeFails)),
   (ctxPages.filter (fun p => !(p == page))).map (fun _ => "page.close") ++
     ["page.bringToFront"])

/-- The withVpsBrowser call made by normalizeToSinglePageVps. -/
def normalizeToSinglePageVpsAttempt (st : VpsBrowserState) :
    Except String (List PageV) × List VpsEvent :=
  withVpsBrowser st vpsNormalizeRun

/-- normalizeToSinglePageVps from route.ts: the attempt is wrapped in a
try/catch that only logs, so the caller-visible outcome is always ok; the
transport events of the attempt are reported for inspection. -/
def normalizeToSinglePageVps (st : VpsBrowserState) :
    Except String (List VpsEvent) :=
  Except.ok (normalizeToSinglePageVpsAttempt st).2

/-! ## The computer_use tool input and validation (route.ts) -/

/-- The action enum of computerUseInputSchema. -/
inductive ActionKind
  | navigate
  | click
  | move
  | type_text
  | key_press
  | scroll
  | wait
  | screenshot
deriving DecidableEq, Repr

/-- Mouse buttons accepted by the schema. -/
inductive BtnKind
  | left
  | middle
  | right
deriving DecidableEq, Repr

/-- The computer_use tool input (computerUseInputSchema): every parameter
except the action is optional. -/
structure ComputerUseInput where
  action : ActionKind
  url : Option String
  x : Option Int
  y : Option Int
  button : Option BtnKind
  text : Option String
  key : Option String
  deltaX : Option Int
  deltaY : Option Int
  waitMs : Option Nat
  fullPage : Option Bool
deriving DecidableEq, Repr

/-- A computer_use input carrying only an action, with every optional
parameter absent. -/
def mkInput (a : ActionKind) : ComputerUseInput :=
  { action := a, url := none, x := none, y := none, button := none,
    text := none, key := none, deltaX := none, deltaY := none,
    waitMs := none, fullPage := none }

/-- Exact validation message of the navigate branch. -/
def msgNavigate : String := "navigate action requires " ++ squote ++ "url" ++ squote

/-- Exact validation message of the click branch. -/
def msgClick : String :=
  "click action requires both " ++ squote ++ "x" ++ squote ++ " and " ++
    squote ++ "y" ++ squote

/-- Exact validation message of the move branch. -/
def msgMove : String :=
  "move action requires both " ++ squote ++ "x" ++ squote ++ " and " ++
    squote ++ "y" ++ squote

/-- Exact validation message of the type_text branch. -/
def msgTypeText : String :=
  "type_text action requires " ++ squote ++ "text" ++ squote

/-- Exact validation message of the key_press branch. -/
def msgKeyPress : String :=
  "key_press action requires " ++ squote ++ "key" ++ squote

/-- The required-parameter validation both tool variants perform before
dispatching the action: navigate needs a truthy url, click and move need
both coordinates, type_text needs truthy text (so the empty string fails),
key_press needs a truthy key; scroll, wait and screenshot validate
nothing.  Returns the exact thrown message when validation fails. -/
def requiredParamError (input : ComputerUseInput) : Option String :=
  match input.action with
  | ActionKind.navigate =>
    if strTruthy input.url then none else some msgNavigate
  | ActionKind.click =>
    match input.x, input.y with
    | some _, some _ => none
    | _, _ => some msgClick
  | ActionKind.move =>
    match input.x, input.y with
    | some _, some _ => none
    | _, _ => some msgMove
  | ActionKind.type_text =>
    if strTruthy input.text then none else some msgTypeText
  | ActionKind.key_press =>
    if strTruthy input.key then none else some msgKeyPress
  | _ => none

/-! ## Managed (kernel) computer_use tool (route.ts lines 371-454) -/

/-- The backend RPCs the kernel tool can dispatch.  The playwright code
strings sent to the managed execute RPC are represented structurally by the
operation they perform. -/
inductive KernelCall
  | navigateExec (timeoutSec : Nat) (url : String)
  | waitExec (timeoutSec : Nat) (waitMs : Nat)
  | clickMouse (x y : Int) (button : BtnKind)
  | moveMouse (x y : Int)
  | typeText (text : String)
  | pressKey (keys : List String)
  | scrollCall (x y deltaX deltaY : Int)
  | captureScreenshot
deriving DecidableEq, Repr

/-- Results the kernel tool returns to the agent loop: the plain success
flag object, the opaque payload of a managed execute RPC, or screenshot
metadata.  Remote payload contents are opaque to this layer. -/
inductive ToolResult
  | okFlag
  | backendPayload (payload : String)
deriving DecidableEq, Repr

/-- The execute handler of createKernelComputerUseTool: validates required
parameters exactly as in the source (JavaScript truthiness for url, text,
key; strict undefined checks for x and y), and on success dispatches the
single corresponding backend RPC.  The returned list records every backend
call made; a thrown validation error is an error result with no backend
call. -/
def kernelComputerUseExecute (backend : KernelCall → ToolResult)
    (input : ComputerUseInput) :
    Except String ToolResult × List KernelCall :=
  match input.action with
  | ActionKind.navigate =>
    if strTruthy input.url then
      let call := KernelCall.navigateExec 60 (input.url.getD "")
      (Except.ok (backend call), [call])
    else (Except.error msgNavigate, [])
  | ActionKind.click =>
    match input.x, input.y with
    | some x, some y =>
      let call := KernelCall.clickMouse x y (input.button.getD BtnKind.left)
      (Except.ok ToolResult.okFlag, [call])
    | _, _ => (Except.error msgClick, [])
  | ActionKind.move =>
    match input.x, input.y with
    | some x, some y =>
      let call := KernelCall.moveMouse x y
      (Except.ok ToolResult.okFlag, [call])
    | _, _ => (Except.error msgMove, [])
  | ActionKind.type_text =>
    if strTruthy input.text then
      let call := KernelCall.typeText (input.text.getD "")
      (Except.ok ToolResult.okFlag, [call])
    else (Except.error msgTypeText, [])
  | ActionKind.key_press =>
    if strTruthy input.key then
      let call := KernelCall.pressKey [input.key.getD ""]
      (Except.ok ToolResult.okFlag, [call])
    else (Except.error msgKeyPress, [])
  | ActionKind.scroll =>
    let call := KernelCall.scrollCall (input.x.getD 0) (input.y.getD 0)
      (input.deltaX.getD 0) (input.deltaY.getD 400)
    (Except.ok ToolResult.okFlag, [call])
  | ActionKind.wait =>
    let waitMs := input.waitMs.getD 1000
    let call := KernelCall.waitExec ((waitMs + 999) / 1000 + 5) waitMs
    (Except.ok (backend call), [call])
  | ActionKind.screenshot =>
    let call := KernelCall.captureScreenshot
    (Except.ok (backend call), [call])

/-! ## Direct (VPS) computer_use tool (route.ts lines 481-552) -/

/-- Results of the VPS computer_use tool: the shared url/title success shape,
or the screenshot shape (byte count and preview prefix elided as remote
binary payload). -/
inductive VpsToolResult
  | pageInfo (url title : String)
  | screenshotInfo (url title : String)
deriving DecidableEq, Repr

/-- The operation body of createVpsComputerUseTool: validates required
parameters exactly as the kernel variant does, and on success dispatches the
single corresponding playwright action on the resolved page.  The action
list names the playwright calls performed. -/
def vpsComputerUseRun (input : ComputerUseInput) (_ctxPages : List PageV)
    (page : PageV) : Except String VpsToolResult × List String :=
  match input.action with
  | ActionKind.navigate =>
    if strTruthy input.url then
      (Except.ok (VpsToolResult.pageInfo (input.url.getD "") page.title),
       ["page.goto"])
    else (Except.error msgNavigate, [])
  | ActionKind.click =>
    match input.x, input.y with
    | some _, some _ =>
      (Except.ok (VpsToolResult.pageInfo page.url page.title), ["mouse.click"])
    | _, _ => (Except.error msgClick, [])
  | ActionKind.move =>
    match input.x, input.y with
    | some _, some _ =>
      (Except.ok (VpsToolResult.pageInfo page.url page.title), ["mouse.move"])
    | _, _ => (Except.error msgMove, [])
  | ActionKind.type_text =>
    if strTruthy input.text then
      (Except.ok (VpsToolResult.pageInfo page.url page.title),
       ["keyboard.type"])
    else (Except.error msgTypeText, [])
  | ActionKind.key_press =>
    if strTruthy input.key then
      (Except.ok (VpsToolResult.pageInfo page.url page.title),
       ["keyboard.press"])
    else (Except.error msgKeyPress, [])
  | ActionKind.scroll =>
    (Except.ok (VpsToolResult.pageInfo page.url page.title), ["mouse.wheel"])
  | ActionKind.wait =>
    (Except.ok (VpsToolResult.pageInfo page.url page.title),
     ["page.waitForTimeout"])
  | ActionKind.screenshot =>
    (Except.ok (VpsToolResult.screenshotInfo page.url page.title),
     ["page.screenshot"])

/-- The execute handler of createVpsComputerUseTool: every invocation runs
inside its own withVpsBrowser scope. -/
def vpsComputerUseExecute (st : VpsBrowserState) (input : ComputerUseInput) :
    Except String VpsToolResult × List VpsEvent :=
  withVpsBrowser st (vpsComputerUseRun input)

/-! ## Raw agent steps and the trace extractor (route.ts lines 669-726) -/

/-- A raw content item of one agent step as produced by the model/tool loop:
a tool call (with the optional code field of its input, as read by
item.input?.code), a tool result (with the optional nested payload, success
flag and error of item.result), free text, or any other item passed through
unchanged. -/
inductive RawItem
  | toolCall (toolCallId toolName : String) (inputCode : Option String)
  | toolResult (toolCallId toolName : String) (result : Option String)
      (success : Option Bool) (error : Option String)
  | textItem (t : String)
  | otherItem (tag : String)
deriving DecidableEq, Repr

/-- One raw step of the agent run. -/
structure RawStep where
  finishReason : Option String
  content : List RawItem
deriving DecidableEq, Repr

/-- A processed content item of detailedSteps.  For tool calls the code field
is item.input?.code || null (so a missing or empty code becomes none); for
tool results the success flag is item.result?.success ?? true. -/
inductive ProcessedItem
  | toolCall (toolCallId toolName : String) (code : Option String)
  | toolResult (toolCallId toolName : String) (result : Option String)
      (success : Bool) (error : Option String)
  | textItem (t : String)
  | otherItem (tag : String)
deriving DecidableEq, Repr

/-- The per-item processing of the detailedSteps map. -/
def processItem : RawItem → ProcessedItem
  | RawItem.toolCall id name inputCode =>
    ProcessedItem.toolCall id name
      (if strTruthy inputCode then inputCode else none)
  | RawItem.toolResult id name result success error =>
    ProcessedItem.toolResult id name result (success.getD true) error
  | RawItem.textItem t => ProcessedItem.textItem t
  | RawItem.otherItem tag => ProcessedItem.otherItem tag

/-- One entry of detailedSteps: a one-based step number, the finish reason
(empty mapped to null by `|| null`), and the processed content. -/
structure DetailedStep where
  stepNumber : Nat
  finishReason : Option String
  content : List ProcessedItem
deriving DecidableEq, Repr

/-- The detailedSteps construction of route.ts. -/
def buildDetailedSteps (steps : List RawStep) : List DetailedStep :=
  steps.enum.map (fun pr =>
    { stepNumber := pr.1 + 1,
      finishReason :=
        if strTruthy pr.2.finishReason then pr.2.finishReason else none,
      content := pr.2.content.map processItem })

/-- One entry of executedCodes. -/
structure ExecutedCode where
  code : String
  success : Bool
  result : Option String
  error : Option String
deriving DecidableEq, Repr

/-- The id-equality lookup of the executedCodes map: the first tool-result
item of the step whose toolCallId equals the given id. -/
def findMatchingResult (content : List ProcessedItem) (id : String) :
    Option ProcessedItem :=
  content.find? (fun r =>
    match r with
    | ProcessedItem.toolResult rid _ _ _ _ => rid = id
    | _ => false)

/-- The filter predicate of the executedCodes construction: a tool-call item
with a truthy code. -/
def isCodeCallItem : ProcessedItem → Bool
  | ProcessedItem.toolCall _ _ code => strTruthy code
  | _ => false

/-- The map body of the executedCodes construction: pairs the code of a
tool-call item with the first matching tool result of the same step, the
success flag defaulting to true when no result is found. -/
def execEntryOf (step : DetailedStep) : ProcessedItem → ExecutedCode
  | ProcessedItem.toolCall id _ code =>
    (match findMatchingResult step.content id with
     | some (ProcessedItem.toolResult _ _ r s e) =>
       { code := code.getD "", success := s, result := r, error := e }
     | _ =>
       { code := code.getD "", success := true, result := none,
         error := none })
  | _ => { code := "", success := true, result := none, error := none }

/-- The executedCodes construction of route.ts: over every detailed step,
filter its content to the tool calls with a truthy code, and map each to its
entry. -/
def buildExecutedCodes (steps : List DetailedStep) : List ExecutedCode :=
  steps.flatMap (fun step =>
    (step.content.filter isCodeCallItem).map (execEntryOf step))

/-- Modelled from the spec words of section 4.5 and claim C5: whether a
processed item is a code-carrying tool call, kept with its step, id and
code. -/
def codeCallOf (step : DetailedStep) :
    ProcessedItem → Option (DetailedStep × String × String)
  | ProcessedItem.toolCall id _ (some c) =>
    if c = "" then none else some (step, id, c)
  | _ => none

/-- Modelled from the spec words of section 4.5 and claim C5, for
comparison with buildExecutedCodes: the code-carrying tool-call items of
detailedSteps, each kept with its step and in enumeration order. -/
def codeCarryingCalls (steps : List DetailedStep) :
    List (DetailedStep × String × String) :=
  steps.flatMap (fun step => step.content.filterMap (codeCallOf step))

/-- Modelled from the spec words of section 4.5 and claim C5, for
comparison with buildExecutedCodes: the entry a code-carrying tool call
contributes, paired with the tool result of equal toolCallId from the same
step; its success flag is that result already-defaulted success flag, and
true when no result with that id exists in the step. -/
def executedCodeEntry (step : DetailedStep) (id c : String) : ExecutedCode :=
  match findMatchingResult step.content id with
  | some (ProcessedItem.toolResult _ _ r s e) =>
    { code := c, success := s, result := r, error := e }
  | _ => { code := c, success := true, result := none, error := none }

/-! ## Agent loop driver

Modelled from the spec: the loop that alternates model generation with tool
execution lives in the external agent library, not under src/; section 4.4
of the spec describes it, and route.ts configures it with the step ceiling
stopWhen stepCountIs(20).  A tool call whose execution fails yields a
failure tool-result item and the loop continues; the loop stops when a turn
emits no tool calls or the ceiling is reached. -/

/-- One tool call emitted by the model in a turn. -/
structure LoopToolCall where
  toolCallId : String
  toolName : String
  inputCode : Option String
deriving DecidableEq, Repr

/-- One model turn: response text plus the tool calls it requests. -/
structure ModelTurn where
  text : String
  toolCalls : List LoopToolCall
deriving DecidableEq, Repr

/-- The tool-call content item a loop tool call contributes to its step. -/
def toolCallItem (c : LoopToolCall) : RawItem :=
  RawItem.toolCall c.toolCallId c.toolName c.inputCode

/-- The tool-result content item of one dispatched tool call: a failure of
the tool body is absorbed into a failure result (success false with the
message), never raised out of the loop. -/
def toolResultItem (exec : LoopToolCall → Except String String)
    (c : LoopToolCall) : RawItem :=
  match exec c with
  | Except.ok payload =>
    RawItem.toolResult c.toolCallId c.toolName (some payload) (some true) none
  | Except.error msg =>
    RawItem.toolResult c.toolCallId c.toolName none (some false) (some msg)

/-- The step one model turn produces: its text, then the tool-call items,
then the matching tool-result items, all in the same step. -/
def mkAgentStep (exec : LoopToolCall → Except String String)
    (turn : ModelTurn) : RawStep :=
  { finishReason :=
      some (if turn.toolCalls.isEmpty then "stop" else "tool-calls"),
    content :=
      RawItem.textItem turn.text ::
        (turn.toolCalls.map toolCallItem ++
          turn.toolCalls.map (toolResultItem exec)) }

/-- Modelled from the spec: the agent loop with explicit fuel.  Each
iteration asks the model for a turn given the steps so far, executes its
tool calls, appends the step, and stops when the turn has no tool calls or
the fuel (the remaining step budget) runs out. -/
def runAgentLoopAux (model : List RawStep → ModelTurn)
    (exec : LoopToolCall → Except String String) :
    Nat → List RawStep → List RawStep
  | 0, acc => acc
  | Nat.succ n, acc =>
    let turn := model acc
    let step := mkAgentStep exec turn
    let acc2 := acc ++ [step]
    if turn.toolCalls.isEmpty then acc2
    else runAgentLoopAux model exec n acc2

/-- The step ceiling route.ts configures: stopWhen stepCountIs(20). -/
def stepLimit : Nat := 20

/-- Modelled from the spec: a whole agent run, bounded by the configured
step ceiling. -/
def runAgentLoop (model : List RawStep → ModelTurn)
    (exec : LoopToolCall → Except String String) : List RawStep :=
  runAgentLoopAux model exec stepLimit []

/-! ## src/lib/supabase-memory.ts -/

/-- One row of the agent_memory table as read back by
loadRecentSessionMemory. -/
structure SessionMemoryItem where
  task : String
  response : Option String
  model_role : String
  model_name : String
  llm_provider : String
  step_count : Option Int
  created_at : String
deriving DecidableEq, Repr

/-- SupabaseMemoryConfig. -/
structure SupabaseMemoryConfig where
  url : String
  key : String
  table : String
deriving DecidableEq, Repr

/-- getSupabaseMemoryConfig: needs a truthy SUPABASE_URL and one of
SUPABASE_SERVICE_ROLE_KEY or SUPABASE_ANON_KEY; the table defaults to
agent_memory; trailing slashes of the url are stripped. -/
def getSupabaseMemoryConfig (env : Env) : Option SupabaseMemoryConfig :=
  let url := env.SUPABASE_URL
  let key := orElseStr env.SUPABASE_SERVICE_ROLE_KEY env.SUPABASE_ANON_KEY
  let table :=
    (orElseStr env.SUPABASE_MEMORY_TABLE (some "agent_memory")).getD
      "agent_memory"
  if strTruthy url && strTruthy key then
    some { url := stripTrailingSlashes (url.getD ""), key := key.getD "",
           table := table }
  else none

/-- The REST query loadRecentSessionMemory sends (its search parameters). -/
structure MemQuery where
  table : String
  selectFields : String
  sessionIdEq : String
  order : String
  limitParam : Nat
deriving DecidableEq, Repr

/-- Body of a memory-store HTTP response after response.json(): invalid
JSON (the json() call throws), a JSON value that is not an array, or an
array of rows. -/
inductive MemBody
  | invalidJson
  | nonArrayJson
  | rowsJson (rows : List SessionMemoryItem)
deriving DecidableEq, Repr

/-- Observable outcome of one memory-store HTTP request: a network-level
failure (fetch rejecting, or the URL constructor throwing on a malformed
configured url - both land in the same catch), or a response with its ok
flag and body. -/
inductive MemFetchResult
  | netError (msg : String)
  | httpResponse (ok : Bool) (body : MemBody)
deriving DecidableEq, Repr

/-- The query built by loadRecentSessionMemory for a session id and limit. -/
def buildMemQuery (config : SupabaseMemoryConfig) (sessionId : String)
    (limit : Nat) : MemQuery :=
  { table := config.table,
    selectFields :=
      "task,response,model_role,model_name,llm_provider,step_count,created_at",
    sessionIdEq := sessionId,
    order := "created_at.desc",
    limitParam := limit }

/-- loadRecentSessionMemory: returns [] when the store is unconfigured;
otherwise queries the store and returns [] on any network failure, non-ok
status, JSON parse failure or non-array body, and the rows as sent by the
store otherwise.  Every failure path is inside the try/catch, so the
function never throws. -/
def loadRecentSessionMemory (env : Env) (store : MemQuery → MemFetchResult)
    (sessionId : String) (limit : Nat) :
    Except String (List SessionMemoryItem) :=
  match getSupabaseMemoryConfig env with
  | none => Except.ok []
  | some config =>
    match store (buildMemQuery config sessionId limit) with
    | MemFetchResult.netError _ => Except.ok []
    | MemFetchResult.httpResponse ok body =>
      if !ok then Except.ok []
      else
        match body with
        | MemBody.invalidJson => Except.ok []
        | MemBody.nonArrayJson => Except.ok []
        | MemBody.rowsJson rows => Except.ok rows

/-- The JavaScript signature defaults the limit to 6. -/
def loadRecentSessionMemoryDefault (env : Env)
    (store : MemQuery → MemFetchResult) (sessionId : String) :
    Except String (List SessionMemoryItem) :=
  loadRecentSessionMemory env store sessionId 6

/-- SaveSessionMemoryInput. -/
structure SaveSessionMemoryInput where
  sessionId : String
  task : String
  response : String
  modelRole : String
  modelName : String
  llmProvider : String
  stepCount : Nat
  success : Bool
deriving DecidableEq, Repr

/-- The row saveSessionMemory inserts. -/
structure MemInsertRow where
  session_id : String
  task : String
  response : String
  model_role : String
  model_name : String
  llm_provider : String
  step_count : Nat
  success : Bool
deriving DecidableEq, Repr

/-- saveSessionMemory: does nothing when the store is unconfigured, and
otherwise posts the row; a non-ok response is only warned about and every
failure is caught, so the function never throws.  The returned value is the
row that was sent (none when nothing was sent). -/
def saveSessionMemory (env : Env) (store : MemInsertRow → MemFetchResult)
    (input : SaveSessionMemoryInput) : Except String (Option MemInsertRow) :=
  match getSupabaseMemoryConfig env with
  | none => Except.ok none
  | some _ =>
    let row : MemInsertRow :=
      { session_id := input.sessionId, task := input.task,
        response := input.response, model_role := input.modelRole,
        model_name := input.modelName, llm_provider := input.llmProvider,
        step_count := input.stepCount, success := input.success }
    match store row with
    | _ => Except.ok (some row)

/-- One block of buildMemoryPromptContext. -/
def memoryLine (i : Nat) (item : SessionMemoryItem) : String :=
  "Memory " ++ toString (i + 1) ++ ":\n- Task: " ++ item.task ++
    "\n- Model: " ++ item.model_name ++ " (" ++ item.model_role ++
    ")\n- Response summary: " ++
    strTake ((orElseStr item.response (some "")).getD "") 300

/-- buildMemoryPromptContext: empty for no items, otherwise the reversed
items joined as numbered memory blocks. -/
def buildMemoryPromptContext (items : List SessionMemoryItem) : String :=
  if items.isEmpty then ""
  else
    String.intercalate "\n\n"
      (items.reverse.enum.map (fun pr => memoryLine pr.1 pr.2))

/-! ## The agent POST handler (route.ts lines 554-762) -/

/-- The JSON request body of the agent endpoint. -/
structure AgentRequest where
  sessionId : Option String
  task : Option String
  cdpWsUrl : Option String
  provider : Option String
deriving DecidableEq, Repr

/-- The model selection for a task.  Which model role and name are chosen
(selectModelForTask) and which inference endpoint serves them
(resolveOllamaRuntimeConfig) are out of scope per spec section 1; the
handler receives the selection as an opaque descriptor. -/
structure ModelSelection where
  role : String
  model : String
deriving DecidableEq, Repr

/-- The JSON response of the agent endpoint, with its HTTP status.  Fields
absent from a particular response body are none; the opaque usage object is
elided. -/
structure HttpResponse where
  status : Nat
  success : Option Bool
  error : Option String
  response : Option String
  stepCount : Option Nat
  executedCodes : Option (List ExecutedCode)
  detailedSteps : Option (List DetailedStep)
  llmProvider : Option String
  llmModel : Option String
  llmRole : Option String
  memoryEnabled : Option Bool
  sandboxProviderField : Option SandboxProvider
deriving DecidableEq, Repr

/-- A failure response body: only the error field, no success flag. -/
def errResponse (status : Nat) (msg : String) : HttpResponse :=
  { status := status, success := none, error := some msg, response := none,
    stepCount := none, executedCodes := none, detailedSteps := none,
    llmProvider := none, llmModel := none, llmRole := none,
    memoryEnabled := none, sandboxProviderField := none }

/-- Side effects of one handler run that are observable beyond the
response: whether agent.generate was reached, the browser state left by the
kernel normalization (when that branch ran), whether the vps normalization
ran, the memory row input passed to saveSessionMemory, and the prompt
handed to the model. -/
structure HandlerEffects where
  generateCalled : Bool
  kernelCtxAfter : Option BrowserCtx
  vpsNormalized : Bool
  savedMemory : Option SaveSessionMemoryInput
  promptUsed : Option String
deriving DecidableEq, Repr

/-- The effects of a handler run that returned before reaching the agent. -/
def noEffects : HandlerEffects :=
  { generateCalled := false, kernelCtxAfter := none, vpsNormalized := false,
    savedMemory := none, promptUsed := none }

/-- The memory suffix appended to the task when memory context exists. -/
def memoryPromptSuffix (memoryContext : String) : String :=
  "\n\nRelevant memory from previous tasks in this session:\n" ++
    memoryContext ++
    "\n\nUse this memory only when it helps complete the current task."

/-- The part of the POST handler from agent.generate onwards: builds the
prompt, runs the agent (its outcome is a parameter, since the model and the
tools it drives are remote), and on success extracts detailedSteps and
executedCodes, saves the session memory row, and builds the success
response; a thrown generate failure lands in the top-level catch, which
responds 500 with success false. -/
def agentPhase (sandboxProvider : SandboxProvider)
    (memorySessionId task llmProviderName : String)
    (selectedModel : ModelSelection) (memoryItems : List SessionMemoryItem)
    (baseEffects : HandlerEffects)
    (genOutcome : Except String (String × List RawStep)) :
    HttpResponse × HandlerEffects :=
  let memoryContext := buildMemoryPromptContext memoryItems
  let promptWithMemory :=
    if memoryContext ≠ "" then task ++ memoryPromptSuffix memoryContext
    else task
  match genOutcome with
  | Except.error msg =>
    ({ errResponse 500
        ((orElseStr (some msg) (some "Failed to execute agent")).getD "") with
        success := some false },
     { baseEffects with
        generateCalled := true
        promptUsed := some promptWithMemory })
  | Except.ok (text, steps) =>
    let detailed := buildDetailedSteps steps
    let codes := buildExecutedCodes detailed
    let saved : SaveSessionMemoryInput :=
      { sessionId := memorySessionId, task := strTrim task, response := text,
        modelRole := selectedModel.role, modelName := selectedModel.model,
        llmProvider := llmProviderName, stepCount := steps.length,
        success := true }
    ({ status := 200, success := some true, error := none,
       response := some text, stepCount := some steps.length,
       executedCodes := some codes, detailedSteps := some detailed,
       llmProvider := some llmProviderName,
       llmModel := some selectedModel.model,
       llmRole := some selectedModel.role,
       memoryEnabled := some (!memoryItems.isEmpty),
       sandboxProviderField := some sandboxProvider },
     { baseEffects with
        generateCalled := true
        promptUsed := some promptWithMemory
        savedMemory := some saved })

/-- The POST handler of route.ts: resolves the sandbox provider and the
memory session id, rejects a falsy task with 400, then per branch checks the
vps endpoint or the kernel credentials and session id (each missing one a
400 before any model call), normalizes the session, and runs the agent
phase.  The loaded memory items and the generate outcome are parameters
standing for the remote collaborators. -/
def handlePOST (req : AgentRequest) (env : Env) (ctx : BrowserCtx)
    (llmProviderName : String) (selectedModel : ModelSelection)
    (memoryItems : List SessionMemoryItem)
    (genOutcome : Except String (String × List RawStep)) :
    HttpResponse × HandlerEffects :=
  let sandboxProvider := resolveSandboxProvider req.provider env.SANDBOX_PROVIDER
  let vpsConfig := getVpsSandboxConfig env
  let memorySessionId :=
    (orElseStr req.sessionId
      (orElseStr (vpsConfig.map (fun c => c.sessionId))
        (some "vps-sandbox-session"))).getD "vps-sandbox-session"
  if !strTruthy req.task then (errResponse 400 "Missing task", noEffects)
  else
    let task := req.task.getD ""
    if sandboxProvider = SandboxProvider.vps then
      let resolvedCdpWsUrl :=
        orElseStr req.cdpWsUrl (vpsConfig.map (fun c => c.cdpWsUrl))
      if !strTruthy resolvedCdpWsUrl then
        (errResponse 400
          "VPS mode requires cdpWsUrl in request or VPS_SANDBOX_CDP_WS_URL in environment",
         noEffects)
      else
        agentPhase sandboxProvider memorySessionId task llmProviderName
          selectedModel memoryItems { noEffects with vpsNormalized := true }
          genOutcome
    else
      if !strTruthy env.KERNEL_API_KEY then
        (errResponse 400 "KERNEL_API_KEY environment variable is not set",
         noEffects)
      else if !strTruthy req.sessionId then
        (errResponse 400 "Kernel mode requires sessionId", noEffects)
      else
        agentPhase sandboxProvider memorySessionId task llmProviderName
          selectedModel memoryItems
          { noEffects with
              kernelCtxAfter := some (normalizeToSinglePageKernel ctx) }
          genOutcome

/-! ## Spec-side definition of provider resolution (for claim C9) -/

/-- A given optional string in the spec sense: an absent or empty value does
not count as given (matching the JavaScript falsy convention the source
uses). -/
def givenStr : Option String → Option String
  | none => none
  | some s => if s = "" then none else some s

/-- Modelled from the spec words of section 6 and claim C9: the backend a
provider string names, case-insensitively; none when the string names no
backend. -/
def backendNamed (s : String) : Option SandboxProvider :=
  if strToLower s = "vps" then some SandboxProvider.vps
  else if strToLower s = "kernel" then some SandboxProvider.kernel
  else none

/-- Modelled from the spec words of section 6 and claim C9, for comparison
with resolveSandboxProvider: the explicit provider argument wins when given;
otherwise the environment-level default applies; an unrecognized or absent
value falls back to the managed (kernel) backend. -/
def specResolveProvider (input envDefault : Option String) : SandboxProvider :=
  match givenStr input with
  | some s => (backendNamed s).getD SandboxProvider.kernel
  | none =>
    match givenStr envDefault with
    | some e => (backendNamed e).getD SandboxProvider.kernel
    | none => SandboxProvider.kernel

/-! ## Concrete inputs used by the witnesses and counterexamples -/

/-- A page with an internal extension URL. -/
def wExtPage : PageV :=
  { id := 0, url := "chrome-extension://abcdef/popup.html",
    title := "ext", closeFails := false }

/-- A page with an ordinary URL. -/
def wSitePage : PageV :=
  { id := 1, url := "https://example.com", title := "Example Domain",
    closeFails := false }

/-- A blank placeholder page. -/
def wBlankPage : PageV :=
  { id := 2, url := "about:blank", title := "", closeFails := false }

/-- A three-page browser context whose first qualifying page is the second
one. -/
def wCtx : BrowserCtx :=
  { pages := [wExtPage, wSitePage, wBlankPage], enumFails := false }

/-- A click invocation missing both coordinates. -/
def c2Input : ComputerUseInput := mkInput ActionKind.click

/-- A VPS browser exposing one context with one ordinary page. -/
def c2St : VpsBrowserState :=
  { connectFails := false, contexts := [[wSitePage]] }

/-- A backend stub for the kernel tool. -/
def c2Backend : KernelCall → ToolResult := fun _ => ToolResult.okFlag

/-- A loop tool call standing for the invalid click invocation. -/
def c2Call : LoopToolCall :=
  { toolCallId := "call-1", toolName := "computer_use", inputCode := none }

/-- A model that keeps requesting the single tool call on every turn. -/
def c2Model : List RawStep → ModelTurn :=
  fun _ => { text := "clicking", toolCalls := [c2Call] }

/-- A tool executor that fails the call with the click validation message. -/
def c2Exec : LoopToolCall → Except String String :=
  fun _ => Except.error msgClick

/-- A model that keeps requesting one tool call on every turn (step-ceiling
witness). -/
def c4Model : List RawStep → ModelTurn :=
  fun _ => { text := "working", toolCalls := [c2Call] }

/-- A tool executor that always succeeds. -/
def c4Exec : LoopToolCall → Except String String :=
  fun _ => Except.ok "ok"

/-- A direct-provider request with no cdpWsUrl. -/
def c6Req : AgentRequest :=
  { sessionId := none, task := some "open the dashboard", cdpWsUrl := none,
    provider := some "vps" }

/-- An environment with nothing configured. -/
def emptyEnv : Env :=
  { SANDBOX_PROVIDER := none, VPS_SANDBOX_LIVE_VIEW_URL := none,
    VPS_SANDBOX_CDP_WS_URL := none, VPS_SANDBOX_SESSION_ID := none,
    KERNEL_API_KEY := none, SUPABASE_URL := none,
    SUPABASE_SERVICE_ROLE_KEY := none, SUPABASE_ANON_KEY := none,
    SUPABASE_MEMORY_TABLE := none }

/-- An empty browser context. -/
def emptyCtx : BrowserCtx := { pages := [], enumFails := false }

/-- A model selection descriptor. -/
def wSel : ModelSelection := { role := "automation", model := "kimi" }

/-- A kernel-mode request whose task is a single space: truthy, but empty
after trimming. -/
def c7Req : AgentRequest :=
  { sessionId := some "sess-1", task := some " ", cdpWsUrl := none,
    provider := none }

/-- An environment configured for the kernel backend. -/
def c7Env : Env := { emptyEnv with KERNEL_API_KEY := some "k" }

/-- A kernel-mode request with a missing task. -/
def c7ReqNoTask : AgentRequest :=
  { sessionId := some "sess-1", task := none, cdpWsUrl := none,
    provider := none }

/-- One memory row. -/
def c10Row : SessionMemoryItem :=
  { task := "t", response := none, model_role := "automation",
    model_name := "m", llm_provider := "local", step_count := none,
    created_at := "2026-01-01" }

/-- An environment with the memory store configured. -/
def c10Env : Env :=
  { emptyEnv with
    SUPABASE_URL := some "https://db.example.com"
    SUPABASE_SERVICE_ROLE_KEY := some "service-key" }

/-- A memory store that answers every query with seven rows, ignoring the
limit parameter of the query. -/
def c10Store : MemQuery → MemFetchResult :=
  fun _ => MemFetchResult.httpResponse true
    (MemBody.rowsJson (List.replicate 7 c10Row))

/-- A memory insert endpoint that accepts every row. -/
def c10Insert : MemInsertRow → MemFetchResult :=
  fun _ => MemFetchResult.httpResponse true MemBody.nonArrayJson

/-! ## Helper lemmas -/

/-- The backend named by a string, with kernel fallback, is vps exactly when
the lowercased string is vps. -/
theorem backendNamed_getD (s : String) :
    (backendNamed s).getD SandboxProvider.kernel =
      (if strToLower s = "vps" then SandboxProvider.vps
       else SandboxProvider.kernel) := by
  unfold backendNamed
  by_cases h1 : strToLower s = "vps" <;> by_cases h2 : strToLower s = "kernel" <;>
    simp [h1, h2]

/-- The primary page of a nonempty page list, written with find?. -/
theorem selectPrimary_cons (p0 : PageV) (rest : List PageV) :
    selectPrimaryPage (p0 :: rest) =
      some (((p0 :: rest).find? (fun p => !isInternalOrBlank p.url)).getD p0) := by
  unfold selectPrimaryPage
  cases h : (p0 :: rest).find? (fun p => !isInternalOrBlank p.url) <;> simp

/-- The primary page resolved for a nonempty page list is one of the pages. -/
theorem selectPrimary_getD_mem (p0 : PageV) (rest : List PageV) :
    (((p0 :: rest).find? (fun p => !isInternalOrBlank p.url)).getD p0) ∈
      p0 :: rest := by
  cases h : (p0 :: rest).find? (fun p => !isInternalOrBlank p.url) with
  | none => simp
  | some q => simpa using List.mem_of_find?_eq_some h

/-- In a list of pages with pairwise-distinct identities, filtering for
structural equality with a member yields exactly that member. -/
theorem filter_eq_singleton_of_nodup (l : List PageV) (x : PageV)
    (hids : (l.map PageV.id).Nodup) (hx : x ∈ l) :
    l.filter (fun p => p == x) = [x] := by
  induction l with
  | nil => cases hx
  | cons a t ih =>
    rw [List.map_cons, List.nodup_cons] at hids
    by_cases hax : a = x
    · subst hax
      have ht : t.filter (fun p => p == a) = [] := by
        rw [List.filter_eq_nil_iff]
        intro p hp
        simp only [beq_iff_eq]
        intro hpa
        exact hids.1 (hpa ▸ List.mem_map_of_mem PageV.id hp)
      simp [List.filter_cons, ht]
    · have hxt : x ∈ t := by
        rcases List.mem_cons.mp hx with h | h
        · exact absurd h.symm (fun hh => hax hh)
        · exact h
      simp [List.filter_cons, hax, ih hids.2 hxt]

/-- The agent loop only ever appends steps to its accumulator. -/
theorem runAgentLoopAux_append (model : List RawStep → ModelTurn)
    (exec : LoopToolCall → Except String String) :
    ∀ (fuel : Nat) (acc : List RawStep),
      ∃ t, runAgentLoopAux model exec fuel acc = acc ++ t := by
  intro fuel
  induction fuel with
  | zero => intro acc; exact ⟨[], by simp [runAgentLoopAux]⟩
  | succ n ih =>
    intro acc
    by_cases h : (model acc).toolCalls.isEmpty
    · exact ⟨[mkAgentStep exec (model acc)], by simp [runAgentLoopAux, h]⟩
    · obtain ⟨t, ht⟩ := ih (acc ++ [mkAgentStep exec (model acc)])
      exact ⟨[mkAgentStep exec (model acc)] ++ t,
        by simp [runAgentLoopAux, h, ht]⟩

/-- The agent loop adds at most `fuel` steps. -/
theorem runAgentLoopAux_length_le (model : List RawStep → ModelTurn)
    (exec : LoopToolCall → Except String String) :
    ∀ (fuel : Nat) (acc : List RawStep),
      (runAgentLoopAux model exec fuel acc).length ≤ acc.length + fuel := by
  intro fuel
  induction fuel with
  | zero => intro acc; simp [runAgentLoopAux]
  | succ n ih =>
    intro acc
    by_cases h : (model acc).toolCalls.isEmpty
    · simp [runAgentLoopAux, h]
    · have := ih (acc ++ [mkAgentStep exec (model acc)])
      simp only [runAgentLoopAux, h, if_neg]
      simp at this ⊢
      omega

/-- When the model requests tools on every turn, the loop runs the fuel
out exactly. -/
theorem runAgentLoopAux_length_eq (model : List RawStep → ModelTurn)
    (exec : LoopToolCall → Except String String)
    (h : ∀ acc, (model acc).toolCalls ≠ []) :
    ∀ (fuel : Nat) (acc : List RawStep),
      (runAgentLoopAux model exec fuel acc).length = acc.length + fuel := by
  intro fuel
  induction fuel with
  | zero => intro acc; simp [runAgentLoopAux]
  | succ n ih =>
    intro acc
    have hh : (model acc).toolCalls.isEmpty = false := by
      simpa [List.isEmpty_iff] using h acc
    have := ih (acc ++ [mkAgentStep exec (model acc)])
    simp only [runAgentLoopAux, hh]
    simp at this ⊢
    omega

/-- With fuel left, the loop adds at least one step. -/
theorem runAgentLoopAux_length_ge (model : List RawStep → ModelTurn)
    (exec : LoopToolCall → Except String String) (fuel : Nat)
    (acc : List RawStep) (hfuel : 1 ≤ fuel) :
    acc.length + 1 ≤ (runAgentLoopAux model exec fuel acc).length := by
  cases fuel with
  | zero => omega
  | succ n =>
    by_cases h : (model acc).toolCalls.isEmpty
    · simp [runAgentLoopAux, h]
    · obtain ⟨t, ht⟩ :=
        runAgentLoopAux_append model exec n (acc ++ [mkAgentStep exec (model acc)])
      simp only [runAgentLoopAux, h, if_neg]
      simp [ht]

/-- The first step of a run is the step of the first model turn. -/
theorem runAgentLoopAux_head (model : List RawStep → ModelTurn)
    (exec : LoopToolCall → Except String String) (fuel : Nat)
    (hfuel : 1 ≤ fuel) :
    (runAgentLoopAux model exec fuel []).head? =
      some (mkAgentStep exec (model [])) := by
  cases fuel with
  | zero => omega
  | succ n =>
    by_cases h : (model []).toolCalls.isEmpty
    · simp [runAgentLoopAux, h]
    · obtain ⟨t, ht⟩ :=
        runAgentLoopAux_append model exec n ([] ++ [mkAgentStep exec (model [])])
      simp only [runAgentLoopAux, h, if_neg]
      simp at ht
      simp [ht]

/-- A run whose first turn requests tools has at least two steps. -/
theorem runAgentLoopAux_two_steps (model : List RawStep → ModelTurn)
    (exec : LoopToolCall → Except String String) (fuel : Nat)
    (hfuel : 2 ≤ fuel) (hne : (model []).toolCalls ≠ []) :
    2 ≤ (runAgentLoopAux model exec fuel []).length := by
  cases fuel with
  | zero => omega
  | succ n =>
    have hh : (model []).toolCalls.isEmpty = false := by
      simpa [List.isEmpty_iff] using hne
    have hge := runAgentLoopAux_length_ge model exec n
      ([] ++ [mkAgentStep exec (model [])]) (by omega)
    simp only [runAgentLoopAux, hh]
    simp at hge ⊢
    omega

/-- Action events contribute no connect events. -/
theorem count_connect_map_action (names : List String) :
    (names.map VpsEvent.action).count VpsEvent.connect = 0 := by
  induction names with
  | nil => rfl
  | cons a t ih => simp [List.count_cons, ih]

/-- Action events contribute no close events. -/
theorem count_close_map_action (names : List String) :
    (names.map VpsEvent.action).count VpsEvent.close = 0 := by
  induction names with
  | nil => rfl
  | cons a t ih => simp [List.count_cons, ih]

/-- Event accounting of one withVpsBrowser scope: one connect and one close
when the connection opens (whatever the operation body does or fails to do),
no events at all when the connect itself fails, and the close is always the
final event of the scope. -/
theorem getLast_cons_concat {α : Type} (a b : α) (l : List α) :
    (a :: (l ++ [b])).getLast? = some b := by
  rw [← List.cons_append, List.getLast?_concat]

/-- Event accounting of one withVpsBrowser scope: one connect and one close
when the connection opens (whatever the operation body does or fails to do),
no events at all when the connect itself fails, and the close is always the
final event of the scope. -/
theorem withVpsBrowser_events {α : Type} (st : VpsBrowserState)
    (run : List PageV → PageV → Except String α × List String) :
    ((withVpsBrowser st run).2.count VpsEvent.connect =
      if st.connectFails then 0 else 1)
    ∧ ((withVpsBrowser st run).2.count VpsEvent.close =
      if st.connectFails then 0 else 1)
    ∧ (st.connectFails = false →
        (withVpsBrowser st run).2.getLast? = some VpsEvent.close) := by
  unfold withVpsBrowser
  cases hcf : st.connectFails with
  | true => simp [hcf]
  | false =>
    simp only [hcf, Bool.false_eq_true, if_false]
    cases hc : st.contexts.head? with
    | none =>
      refine ⟨?_, ?_, fun _ => ?_⟩ <;>
        simp [List.count_cons, List.count_append, getLast_cons_concat]
    | some ctxPages =>
      cases hsel : selectPrimaryPage ctxPages with
      | some page =>
        refine ⟨?_, ?_, fun _ => ?_⟩
        · simp [hsel, List.count_cons, List.count_append,
            count_connect_map_action]
        · simp [hsel, List.count_cons, List.count_append,
            count_close_map_action]
        · simp only [hsel]
          exact getLast_cons_concat _ _ _
      | none =>
        refine ⟨?_, ?_, fun _ => ?_⟩
        · simp [hsel, List.count_cons, List.count_append,
            count_connect_map_action]
        · simp [hsel, List.count_cons, List.count_append,
            count_close_map_action]
        · simp only [hsel]
          exact getLast_cons_concat _ _ _

/-- The response of the agent phase does not depend on the base effects. -/
theorem agentPhase_fst_eff (sp : SandboxProvider)
    (msid task llm : String) (sel : ModelSelection)
    (mem : List SessionMemoryItem) (be be2 : HandlerEffects)
    (gen : Except String (String × List RawStep)) :
    (agentPhase sp msid task llm sel mem be gen).1 =
      (agentPhase sp msid task llm sel mem be2 gen).1 := by
  cases gen with
  | error m => rfl
  | ok v => cases v with | mk t s => rfl

/-- A computer_use invocation that fails required-parameter validation makes
the kernel tool throw that exact message without any backend RPC. -/
theorem kernelComputerUseExecute_error (backend : KernelCall → ToolResult)
    (input : ComputerUseInput) (msg : String)
    (hmsg : requiredParamError input = some msg) :
    kernelComputerUseExecute backend input = (Except.error msg, []) := by
  unfold requiredParamError at hmsg
  unfold kernelComputerUseExecute
  cases ha : input.action
  case navigate =>
    rw [ha] at hmsg
    cases hg : strTruthy input.url <;> rw [hg] at hmsg <;> simp_all
  case click =>
    rw [ha] at hmsg
    cases hx : input.x <;> cases hy : input.y <;>
      rw [hx, hy] at hmsg <;> simp_all
  case move =>
    rw [ha] at hmsg
    cases hx : input.x <;> cases hy : input.y <;>
      rw [hx, hy] at hmsg <;> simp_all
  case type_text =>
    rw [ha] at hmsg
    cases hg : strTruthy input.text <;> rw [hg] at hmsg <;> simp_all
  case key_press =>
    rw [ha] at hmsg
    cases hg : strTruthy input.key <;> rw [hg] at hmsg <;> simp_all
  case scroll => rw [ha] at hmsg; simp_all
  case wait => rw [ha] at hmsg; simp_all
  case screenshot => rw [ha] at hmsg; simp_all

/-- A computer_use invocation that fails required-parameter validation makes
the vps operation body throw that exact message without any page action. -/
theorem vpsComputerUseRun_error (input : ComputerUseInput) (msg : String)
    (ctxPages : List PageV) (page : PageV)
    (hmsg : requiredParamError input = some msg) :
    vpsComputerUseRun input ctxPages page = (Except.error msg, []) := by
  unfold requiredParamError at hmsg
  unfold vpsComputerUseRun
  cases ha : input.action
  case navigate =>
    rw [ha] at hmsg
    cases hg : strTruthy input.url <;> rw [hg] at hmsg <;> simp_all
  case click =>
    rw [ha] at hmsg
    cases hx : input.x <;> cases hy : input.y <;>
      rw [hx, hy] at hmsg <;> simp_all
  case move =>
    rw [ha] at hmsg
    cases hx : input.x <;> cases hy : input.y <;>
      rw [hx, hy] at hmsg <;> simp_all
  case type_text =>
    rw [ha] at hmsg
    cases hg : strTruthy input.text <;> rw [hg] at hmsg <;> simp_all
  case key_press =>
    rw [ha] at hmsg
    cases hg : strTruthy input.key <;> rw [hg] at hmsg <;> simp_all
  case scroll => rw [ha] at hmsg; simp_all
  case wait => rw [ha] at hmsg; simp_all
  case screenshot => rw [ha] at hmsg; simp_all

/-- The entry a code-carrying tool call contributes equals the spec-side
entry for its id and code. -/
theorem execEntryOf_toolCall (step : DetailedStep) (id name c : String) :
    execEntryOf step (ProcessedItem.toolCall id name (some c)) =
      executedCodeEntry step id c := by
  simp only [execEntryOf, executedCodeEntry]
  cases h : findMatchingResult step.content id with
  | none => rfl
  | some r => cases r <;> rfl

/-- Per-step agreement of the source-side and spec-side executedCodes
constructions. -/
theorem step_entries_eq (step : DetailedStep)
    (content : List ProcessedItem) :
    (content.filter isCodeCallItem).map (execEntryOf step) =
      (content.filterMap (codeCallOf step)).map
        (fun pr => executedCodeEntry pr.1 pr.2.1 pr.2.2) := by
  induction content with
  | nil => rfl
  | cons a t ih =>
    cases a with
    | toolCall id name code =>
      cases code with
      | none =>
        simpa [isCodeCallItem, codeCallOf, strTruthy, List.filter_cons,
          List.filterMap_cons] using ih
      | some c =>
        by_cases hc : c = ""
        · simpa [isCodeCallItem, codeCallOf, strTruthy, hc, List.filter_cons,
            List.filterMap_cons] using ih
        · simp [isCodeCallItem, codeCallOf, strTruthy, hc, List.filter_cons,
            List.filterMap_cons, ih, execEntryOf_toolCall]
    | toolResult id name r s e =>
      simpa [isCodeCallItem, codeCallOf, List.filter_cons,
        List.filterMap_cons] using ih
    | textItem t2 =>
      simpa [isCodeCallItem, codeCallOf, List.filter_cons,
        List.filterMap_cons] using ih
    | otherItem tag =>
      simpa [isCodeCallItem, codeCallOf, List.filter_cons,
        List.filterMap_cons] using ih

/-- C9: for every input, provider resolution returns the backend named by
the explicit provider argument when one is given; otherwise the
environment-level default; and any unrecognized or absent (or empty, which
JavaScript treats as absent) value falls back to the managed (kernel)
backend.  Stated as equality with the spec-side resolution function. -/
theorem resolveSandboxProvider_matches_spec (input envDefault : Option String) :
    resolveSandboxProvider input envDefault =
      specResolveProvider input envDefault := by
  rcases input with _ | s
  · rcases envDefault with _ | e
    · simp [resolveSandboxProvider, specResolveProvider, givenStr, orElseStr,
        strTruthy]
      decide
    · by_cases he : e = ""
      · subst he
        simp [resolveSandboxProvider, specResolveProvider, givenStr, orElseStr,
          strTruthy]
        decide
      · simp [resolveSandboxProvider, specResolveProvider, givenStr, orElseStr,
          strTruthy, he, backendNamed_getD]
  · by_cases hs : s = ""
    · subst hs
      rcases envDefault with _ | e
      · simp [resolveSandboxProvider, specResolveProvider, givenStr, orElseStr,
          strTruthy]
        decide
      · by_cases he : e = ""
        · subst he
          simp [resolveSandboxProvider, specResolveProvider, givenStr,
            orElseStr, strTruthy]
          decide
        · simp [resolveSandboxProvider, specResolveProvider, givenStr,
            orElseStr, strTruthy, he, backendNamed_getD]
    · simp [resolveSandboxProvider, specResolveProvider, givenStr, orElseStr,
        strTruthy, hs, backendNamed_getD]

/-- C3: the CDP connection opened for one direct-backend operation is closed
before the operation returns, on the success path and on every failure path
(the trace holds equally many connects and closes, at most one connect, and
ends with the close whenever any event happened), and no connection is held
across two tool calls (the concatenated trace of two consecutive operations
is balanced, the first operation having closed its own connection). -/
theorem withVpsBrowser_scoped_connection {α β : Type} (st : VpsBrowserState)
    (run : List PageV → PageV → Except String α × List String)
    (st2 : VpsBrowserState)
    (run2 : List PageV → PageV → Except String β × List String) :
    ((withVpsBrowser st run).2.count VpsEvent.connect =
      (withVpsBrowser st run).2.count VpsEvent.close)
    ∧ (withVpsBrowser st run).2.count VpsEvent.connect ≤ 1
    ∧ ((withVpsBrowser st run).2 = [] ∨
        (withVpsBrowser st run).2.getLast? = some VpsEvent.close)
    ∧ (((withVpsBrowser st run).2 ++ (withVpsBrowser st2 run2).2).count
          VpsEvent.connect =
        ((withVpsBrowser st run).2 ++ (withVpsBrowser st2 run2).2).count
          VpsEvent.close) := by
  obtain ⟨h1, h2, h3⟩ := withVpsBrowser_events st run
  obtain ⟨g1, g2, _⟩ := withVpsBrowser_events st2 run2
  refine ⟨by rw [h1, h2], by rw [h1]; split <;> simp, ?_, ?_⟩
  · cases hcf : st.connectFails with
    | true => left; simp [withVpsBrowser, hcf]
    | false => right; exact h3 hcf
  · rw [List.count_append, List.count_append, h1, h2, g1, g2]

/-- C5: every entry of executedCodes corresponds to exactly one
code-carrying tool-call item of detailedSteps, in order, each paired with
the first tool-result of equal toolCallId from the same step, the success
flag being that result already-defaulted flag and true when no such result
exists.  Stated as equality with the spec-side pairing, plus the length
equality that makes the correspondence one-to-one. -/
theorem executedCodes_round_trip (steps : List DetailedStep) :
    buildExecutedCodes steps =
      (codeCarryingCalls steps).map
        (fun pr => executedCodeEntry pr.1 pr.2.1 pr.2.2)
    ∧ (buildExecutedCodes steps).length = (codeCarryingCalls steps).length := by
  have h : buildExecutedCodes steps =
      (codeCarryingCalls steps).map
        (fun pr => executedCodeEntry pr.1 pr.2.1 pr.2.2) := by
    unfold buildExecutedCodes codeCarryingCalls
    induction steps with
    | nil => rfl
    | cons s ts ih =>
      rw [List.flatMap_cons, List.flatMap_cons, List.map_append,
        step_entries_eq s s.content, ih]
  exact ⟨h, by rw [h, List.length_map]⟩

/-- C1: for a session with at least one open page (all of whose close
operations work, with distinct page identities, and with working
enumeration), normalization leaves exactly one page open, namely the first
enumerated page whose URL neither starts with a chrome-extension URL nor
equals about:blank, or the first page when no page qualifies; this holds
for the kernel normalization snippet and for the vps normalization run
alike. -/
theorem normalize_single_primary (ctx : BrowserCtx) (p0 : PageV)
    (rest : List PageV) (hpages : ctx.pages = p0 :: rest)
    (henum : ctx.enumFails = false)
    (hclose : ∀ p ∈ ctx.pages, p.closeFails = false)
    (hids : (ctx.pages.map PageV.id).Nodup) :
    (normalizeToSinglePageKernel ctx).pages =
      [((p0 :: rest).find? (fun p => !isInternalOrBlank p.url)).getD p0]
    ∧ (normalizeToSinglePageVpsAttempt
        { connectFails := false, contexts := [ctx.pages] }).1 =
      Except.ok
        [((p0 :: rest).find? (fun p => !isInternalOrBlank p.url)).getD p0] := by
  obtain ⟨pages, enum⟩ := ctx
  simp only at hpages henum hclose hids
  subst hpages
  subst henum
  have hmem := selectPrimary_getD_mem p0 rest
  have hfilter : (p0 :: rest).filter
      (fun p => p ==
        (((p0 :: rest).find? (fun q => !isInternalOrBlank q.url)).getD p0) ||
        p.closeFails) =
      [((p0 :: rest).find? (fun q => !isInternalOrBlank q.url)).getD p0] := by
    have hcong : ∀ p ∈ (p0 :: rest),
        (p == (((p0 :: rest).find?
            (fun q => !isInternalOrBlank q.url)).getD p0) ||
          p.closeFails) =
        (p == (((p0 :: rest).find?
            (fun q => !isInternalOrBlank q.url)).getD p0)) := by
      intro p hp
      rw [hclose p hp]
      simp
    rw [List.filter_congr hcong]
    exact filter_eq_singleton_of_nodup _ _ hids hmem
  constructor
  · simp [normalizeToSinglePageKernel, kernelNormalizeSnippet,
      closeOtherPages, selectPrimary_cons, hfilter]
  · simp [normalizeToSinglePageVpsAttempt, withVpsBrowser, vpsNormalizeRun,
      selectPrimary_cons, hfilter]

/-- Witness for C1: a concrete three-page session (extension page, ordinary
page, blank page) normalizes to the single selected primary page, on both
backends. -/
theorem normalize_single_primary_witness :
    (normalizeToSinglePageKernel wCtx).pages =
      [(([wExtPage, wSitePage, wBlankPage]).find?
          (fun p => !isInternalOrBlank p.url)).getD wExtPage]
    ∧ (normalizeToSinglePageVpsAttempt
        { connectFails := false, contexts := [wCtx.pages] }).1 =
      Except.ok
        [(([wExtPage, wSitePage, wBlankPage]).find?
            (fun p => !isInternalOrBlank p.url)).getD wExtPage] :=
  normalize_single_primary wCtx wExtPage [wSitePage, wBlankPage] rfl rfl
    (by decide) (by decide)

/-- Counterexample for C2 as stated: a click invocation missing both
coordinates, dispatched to the direct-backend tool, still opens the CDP
transport connection (a connect event occurs) even though validation fails
with the expected message - so the call does reach the backend transport in
the direct variant. -/
theorem c2_counterexample :
    (vpsComputerUseExecute c2St c2Input).1 = Except.error msgClick
    ∧ VpsEvent.connect ∈ (vpsComputerUseExecute c2St c2Input).2 :=
  ⟨rfl, by decide⟩

/-- C2 (amended): for every ToolInvocation missing a required parameter,
the tool returns a failure whose message names the missing parameter; the
managed-variant tool performs no backend call at all, while the
direct-variant tool opens and closes its per-call CDP connection but
dispatches no browser action; and the agent loop records the failure as a
tool outcome and continues to further turns rather than aborting the
run. -/
theorem tool_missing_param_failure (backend : KernelCall → ToolResult)
    (st : VpsBrowserState) (input : ComputerUseInput) (msg : String)
    (exec : LoopToolCall → Except String String)
    (model : List RawStep → ModelTurn) (c : LoopToolCall) (txt : String)
    (hmsg : requiredParamError input = some msg)
    (hconn : st.connectFails = false)
    (hctx : st.contexts ≠ [])
    (hmodel : model [] = { text := txt, toolCalls := [c] })
    (hexec : exec c = Except.error msg) :
    kernelComputerUseExecute backend input = (Except.error msg, [])
    ∧ (vpsComputerUseExecute st input).1 = Except.error msg
    ∧ (∀ name, VpsEvent.action name ∉ (vpsComputerUseExecute st input).2)
    ∧ VpsEvent.connect ∈ (vpsComputerUseExecute st input).2
    ∧ VpsEvent.close ∈ (vpsComputerUseExecute st input).2
    ∧ 2 ≤ (runAgentLoop model exec).length
    ∧ (∃ s, (runAgentLoop model exec).head? = some s ∧
        RawItem.toolResult c.toolCallId c.toolName none (some false)
          (some msg) ∈ s.content) := by
  obtain ⟨ps, cs, hcs⟩ : ∃ ps cs, st.contexts = ps :: cs := by
    cases hc : st.contexts with
    | nil => exact absurd hc hctx
    | cons a b => exact ⟨a, b, rfl⟩
  have hmain : (vpsComputerUseExecute st input).1 = Except.error msg
      ∧ ((vpsComputerUseExecute st input).2 =
            [VpsEvent.connect, VpsEvent.close]
        ∨ (vpsComputerUseExecute st input).2 =
            [VpsEvent.connect, VpsEvent.newPage, VpsEvent.close]) := by
    unfold vpsComputerUseExecute withVpsBrowser
    cases hsel : selectPrimaryPage ps with
    | some page =>
      simp [hconn, hcs, hsel, vpsComputerUseRun_error input msg ps page hmsg]
    | none =>
      simp [hconn, hcs, hsel, vpsComputerUseRun_error input msg _ _ hmsg]
  refine ⟨kernelComputerUseExecute_error backend input msg hmsg, hmain.1,
    ?_, ?_, ?_, ?_, ?_⟩
  · intro name
    rcases hmain.2 with h | h <;> simp [h]
  · rcases hmain.2 with h | h <;> simp [h]
  · rcases hmain.2 with h | h <;> simp [h]
  · exact runAgentLoopAux_two_steps model exec stepLimit (by decide)
      (by rw [hmodel]; simp)
  · refine ⟨mkAgentStep exec (model []),
      runAgentLoopAux_head model exec stepLimit (by decide), ?_⟩
    rw [hmodel]
    simp [mkAgentStep, toolCallItem, toolResultItem, hexec]

/-- Witness for C2 (amended) at the concrete invalid click: the kernel tool
throws the exact message with no backend call, and the loop still runs at
least two steps. -/
theorem tool_missing_param_failure_witness :
    kernelComputerUseExecute c2Backend c2Input = (Except.error msgClick, [])
    ∧ 2 ≤ (runAgentLoop c2Model c2Exec).length := by
  have h := tool_missing_param_failure c2Backend c2St c2Input msgClick c2Exec
    c2Model c2Call "clicking" rfl rfl (by decide) rfl rfl
  exact ⟨h.1, h.2.2.2.2.2.1⟩

/-- C4: every run produces at most 20 agent steps; when the ceiling is
reached with the model still requesting tools on every turn, exactly 20
steps exist and the response built from the run is still success true; and
the stepCount field of the success response equals the number of agent
steps produced. -/
theorem step_budget_and_step_count :
    (∀ (model : List RawStep → ModelTurn)
        (exec : LoopToolCall → Except String String),
      (runAgentLoop model exec).length ≤ stepLimit)
    ∧ (∀ (model : List RawStep → ModelTurn)
          (exec : LoopToolCall → Except String String),
        (∀ acc, (model acc).toolCalls ≠ []) →
        (runAgentLoop model exec).length = stepLimit)
    ∧ (∀ (sp : SandboxProvider) (msid task llm : String)
          (sel : ModelSelection) (mem : List SessionMemoryItem)
          (be : HandlerEffects) (text : String) (steps : List RawStep),
        (agentPhase sp msid task llm sel mem be
            (Except.ok (text, steps))).1.success = some true
        ∧ (agentPhase sp msid task llm sel mem be
            (Except.ok (text, steps))).1.stepCount = some steps.length
        ∧ (agentPhase sp msid task llm sel mem be
            (Except.ok (text, steps))).1.status = 200)
    ∧ stepLimit = 20 := by
  refine ⟨?_, ?_, ?_, rfl⟩
  · intro model exec
    simpa using runAgentLoopAux_length_le model exec stepLimit []
  · intro model exec h
    simpa using runAgentLoopAux_length_eq model exec h stepLimit []
  · intro sp msid task llm sel mem be text steps
    exact ⟨rfl, rfl, rfl⟩

/-- Witness for C4: a model that always requests a tool runs exactly the
step ceiling out. -/
theorem step_budget_and_step_count_witness :
    (runAgentLoop c4Model c4Exec).length = stepLimit :=
  step_budget_and_step_count.2.1 c4Model c4Exec (fun acc => by simp [c4Model])

/-- Counterexample for C6 as stated: for the concrete direct-provider
request with no cdpWsUrl and no configured default, the handler answers 400
with the endpoint error and makes no model call, but the 400 body carries
no success field at all - success is none, not false. -/
theorem c6_counterexample :
    (handlePOST c6Req emptyEnv emptyCtx "local" wSel []
        (Except.ok ("", []))).1.status = 400
    ∧ (handlePOST c6Req emptyEnv emptyCtx "local" wSel []
        (Except.ok ("", []))).1.success = none
    ∧ (handlePOST c6Req emptyEnv emptyCtx "local" wSel []
        (Except.ok ("", []))).2.generateCalled = false := by
  decide

/-- C6 (amended): a request selecting the direct (vps) provider with no
cdpWsUrl in the request and no configured default endpoint is rejected with
HTTP 400 and an error message identifying the missing endpoint, before any
model call is made; the 400 body carries no success field (failure is
indicated by the status and error, not by success false). -/
theorem vps_missing_endpoint_rejected (req : AgentRequest) (env : Env)
    (ctx : BrowserCtx) (llm : String) (sel : ModelSelection)
    (mem : List SessionMemoryItem)
    (gen : Except String (String × List RawStep))
    (htask : strTruthy req.task = true)
    (hprov : resolveSandboxProvider req.provider env.SANDBOX_PROVIDER =
      SandboxProvider.vps)
    (hurl : strTruthy (orElseStr req.cdpWsUrl
      ((getVpsSandboxConfig env).map (fun c => c.cdpWsUrl))) = false) :
    handlePOST req env ctx llm sel mem gen =
      (errResponse 400
        "VPS mode requires cdpWsUrl in request or VPS_SANDBOX_CDP_WS_URL in environment",
       noEffects) := by
  unfold handlePOST
  simp [htask, hprov, hurl]

/-- Witness for C6 (amended) at the concrete request. -/
theorem vps_missing_endpoint_rejected_witness :
    handlePOST c6Req emptyEnv emptyCtx "local" wSel [] (Except.ok ("", [])) =
      (errResponse 400
        "VPS mode requires cdpWsUrl in request or VPS_SANDBOX_CDP_WS_URL in environment",
       noEffects) :=
  vps_missing_endpoint_rejected c6Req emptyEnv emptyCtx "local" wSel []
    (Except.ok ("", [])) (by decide) (by decide) (by decide)

/-- Counterexample for C7 as stated: a task consisting of one space is
empty after trimming, yet the handler does not reject it - the run proceeds
to the model and answers 200. -/
theorem c7_counterexample :
    strTrim " " = ""
    ∧ (handlePOST c7Req c7Env emptyCtx "local" wSel []
        (Except.ok ("done", []))).1.status = 200
    ∧ (handlePOST c7Req c7Env emptyCtx "local" wSel []
        (Except.ok ("done", []))).2.generateCalled = true := by
  decide

/-- C7 (amended): every request whose task is missing or is the empty
string is rejected with HTTP 400 before any backend connection or model
call is made (no normalization, no model call, no memory write); a
whitespace-only task, although empty after trimming, is not rejected. -/
theorem missing_task_rejected (req : AgentRequest) (env : Env)
    (ctx : BrowserCtx) (llm : String) (sel : ModelSelection)
    (mem : List SessionMemoryItem)
    (gen : Except String (String × List RawStep))
    (h : req.task = none ∨ req.task = some "") :
    handlePOST req env ctx llm sel mem gen =
      (errResponse 400 "Missing task", noEffects) := by
  unfold handlePOST
  rcases h with h | h <;> simp [h, strTruthy]

/-- Witness for C7 (amended) at a concrete request with no task. -/
theorem missing_task_rejected_witness :
    handlePOST c7ReqNoTask c7Env emptyCtx "local" wSel []
        (Except.ok ("done", [])) =
      (errResponse 400 "Missing task", noEffects) :=
  missing_task_rejected c7ReqNoTask c7Env emptyCtx "local" wSel []
    (Except.ok ("done", [])) (Or.inl rfl)

/-- C8: normalization failures are never raised to the caller - the
caller-visible outcome of the kernel normalization is always ok, an
enumeration failure leaves the page state untouched (logged only), one page
whose close works is closed even when other pages (and the overall
ordering) fail, a page whose close fails merely survives, the vps
normalization outcome is always ok, and the handler response does not
depend on the browser state the normalization saw, so the run proceeds
regardless. -/
theorem normalization_failures_swallowed :
    (∀ ctx, normalizeToSinglePageKernelOutcome ctx =
        Except.ok (normalizeToSinglePageKernel ctx))
    ∧ (∀ ctx, ctx.enumFails = true → normalizeToSinglePageKernel ctx = ctx)
    ∧ (∀ (pages : List PageV) (primary p : PageV), p ∈ pages → p ≠ primary →
        p.closeFails = false → p ∉ closeOtherPages pages primary)
    ∧ (∀ (pages : List PageV) (primary p : PageV), p ∈ pages →
        p.closeFails = true → p ∈ closeOtherPages pages primary)
    ∧ (∀ st, normalizeToSinglePageVps st =
        Except.ok (normalizeToSinglePageVpsAttempt st).2)
    ∧ (∀ (req : AgentRequest) (env : Env) (ctx ctx2 : BrowserCtx)
          (llm : String) (sel : ModelSelection)
          (mem : List SessionMemoryItem)
          (gen : Except String (String × List RawStep)),
        (handlePOST req env ctx llm sel mem gen).1 =
          (handlePOST req env ctx2 llm sel mem gen).1) := by
  refine ⟨?_, ?_, ?_, ?_, fun st => rfl, ?_⟩
  · intro ctx
    unfold normalizeToSinglePageKernelOutcome normalizeToSinglePageKernel
    cases kernelNormalizeSnippet ctx with
    | ok v => cases v with | mk a b => rfl
    | error e => rfl
  · intro ctx h
    unfold normalizeToSinglePageKernel kernelNormalizeSnippet
    simp [h]
  · intro pages primary p hp hne hcf
    simp [closeOtherPages, List.mem_filter, hcf, hne]
  · intro pages primary p hp hcf
    simp [closeOtherPages, List.mem_filter, hcf, hp]
  · intro req env ctx ctx2 llm sel mem gen
    unfold handlePOST
    cases ht : strTruthy req.task with
    | false => simp [ht]
    | true =>
      simp only [ht]
      split_ifs <;> first | rfl | apply agentPhase_fst_eff

/-- Witness for C8: an enumeration failure leaves a concrete one-page state
untouched, and a closable non-primary page is closed even next to a page
whose close fails. -/
theorem normalization_failures_swallowed_witness :
    normalizeToSinglePageKernel { pages := [wSitePage], enumFails := true } =
      { pages := [wSitePage], enumFails := true }
    ∧ wBlankPage ∉
        closeOtherPages
          [wSitePage,
           { id := 7, url := "https://stuck.example", title := "stuck",
             closeFails := true },
           wBlankPage]
          wSitePage := by
  refine ⟨normalization_failures_swallowed.2.1 _ rfl, ?_⟩
  exact normalization_failures_swallowed.2.2.1 _ wSitePage wBlankPage
    (by decide) (by decide) rfl

/-- Counterexample for C10 as stated: with the store configured and the
remote store answering seven rows to a query whose limit parameter was six,
loadRecentSessionMemory returns all seven rows - the client applies no
truncation to the limit, which is only a request parameter. -/
theorem c10_counterexample :
    loadRecentSessionMemory c10Env c10Store "session-1" 6 =
      Except.ok (List.replicate 7 c10Row)
    ∧ (List.replicate 7 c10Row).length = 7 :=
  ⟨rfl, rfl⟩

/-- C10 (amended): loadRecentSessionMemory and saveSessionMemory never
throw; when the store is unconfigured, loadRecentSessionMemory returns the
empty list and saveSessionMemory sends nothing; on a network failure or a
non-ok response loadRecentSessionMemory returns the empty list; on success
it returns exactly the rows of the store response - the query asks the
store for at most `limit` rows (default 6), but no client-side truncation
is applied - so memory-store unavailability can never fail a run. -/
theorem memory_store_fault_tolerant :
    (∀ (env : Env) (store : MemQuery → MemFetchResult) (sessionId : String)
        (limit : Nat), ∃ rows,
      loadRecentSessionMemory env store sessionId limit = Except.ok rows)
    ∧ (∀ (env : Env) (store : MemInsertRow → MemFetchResult)
          (input : SaveSessionMemoryInput), ∃ sent,
        saveSessionMemory env store input = Except.ok sent)
    ∧ (∀ (env : Env) (store : MemQuery → MemFetchResult) (sessionId : String)
          (limit : Nat), getSupabaseMemoryConfig env = none →
        loadRecentSessionMemory env store sessionId limit = Except.ok [])
    ∧ (∀ (env : Env) (store : MemInsertRow → MemFetchResult)
          (input : SaveSessionMemoryInput),
        getSupabaseMemoryConfig env = none →
        saveSessionMemory env store input = Except.ok none)
    ∧ (∀ (env : Env) (store : MemQuery → MemFetchResult) (sessionId : String)
          (limit : Nat) (msg : String),
        (∀ q, store q = MemFetchResult.netError msg) →
        loadRecentSessionMemory env store sessionId limit = Except.ok [])
    ∧ (∀ (env : Env) (store : MemQuery → MemFetchResult) (sessionId : String)
          (limit : Nat) (body : MemBody),
        (∀ q, store q = MemFetchResult.httpResponse false body) →
        loadRecentSessionMemory env store sessionId limit = Except.ok [])
    ∧ (∀ (config : SupabaseMemoryConfig) (sessionId : String) (limit : Nat),
        (buildMemQuery config sessionId limit).limitParam = limit)
    ∧ (∀ (env : Env) (store : MemQuery → MemFetchResult)
          (sessionId : String),
        loadRecentSessionMemoryDefault env store sessionId =
          loadRecentSessionMemory env store sessionId 6) := by
  refine ⟨?_, ?_, ?_, ?_, ?_, ?_, fun config sid lim => rfl,
    fun env store sid => rfl⟩
  · intro env store sid lim
    unfold loadRecentSessionMemory
    cases getSupabaseMemoryConfig env with
    | none => exact ⟨[], rfl⟩
    | some config =>
      dsimp only
      cases hs : store (buildMemQuery config sid lim) with
      | netError m => exact ⟨[], rfl⟩
      | httpResponse ok body =>
        cases ok with
        | false => exact ⟨[], rfl⟩
        | true =>
          cases body with
          | invalidJson => exact ⟨[], rfl⟩
          | nonArrayJson => exact ⟨[], rfl⟩
          | rowsJson rows => exact ⟨rows, rfl⟩
  · intro env store input
    unfold saveSessionMemory
    cases getSupabaseMemoryConfig env with
    | none => exact ⟨none, rfl⟩
    | some config =>
      dsimp only
      cases store
        { session_id := input.sessionId, task := input.task,
          response := input.response, model_role := input.modelRole,
          model_name := input.modelName, llm_provider := input.llmProvider,
          step_count := input.stepCount, success := input.success } with
      | netError m => exact ⟨_, rfl⟩
      | httpResponse ok body => exact ⟨_, rfl⟩
  · intro env store sid lim h
    unfold loadRecentSessionMemory
    rw [h]
  · intro env store input h
    unfold saveSessionMemory
    rw [h]
  · intro env store sid lim msg h
    unfold loadRecentSessionMemory
    cases getSupabaseMemoryConfig env with
    | none => rfl
    | some config =>
      dsimp only
      rw [h]
  · intro env store sid lim body h
    unfold loadRecentSessionMemory
    cases getSupabaseMemoryConfig env with
    | none => rfl
    | some config =>
      dsimp only
      rw [h]
      rfl

/-- Witness for C10 (amended): with nothing configured, the load returns
the empty list and the save sends nothing. -/
theorem memory_store_fault_tolerant_witness :
    loadRecentSessionMemory emptyEnv c10Store "session-1" 6 = Except.ok []
    ∧ saveSessionMemory emptyEnv c10Insert
        { sessionId := "session-1", task := "t", response := "r",
          modelRole := "automation", modelName := "m",
          llmProvider := "local", stepCount := 1, success := true } =
      Except.ok none :=
  ⟨memory_store_fault_tolerant.2.2.1 emptyEnv c10Store "session-1" 6 rfl,
   memory_store_fault_tolerant.2.2.2.1 emptyEnv c10Insert _ rfl⟩
